import Mathlib

/-!
Shallow embedding of the asynchronous image-classification pipeline of the
image-classifier application (files `app/worker.py`, `app/main.py`,
`app/database.py`, `app/baseModels.py`).

Modelling conventions:
* The SQLAlchemy table `image_records` is a list of `ImageRecord` values; the
  ORM lookup `db.query(ImageRecord).filter(ImageRecord.url == url).first()`
  is `findByURL`, and a committed in-place mutation of a fetched row is
  `upsert` (every row with the same primary-key url is replaced).
* Nullable columns are `Option`. The schema declares `image_type` as
  `nullable=False` with no default, so a commit that writes a row whose
  `image_type` is null raises `IntegrityError`: `commitWrite` models this
  engine-enforced check for both inserts and updates. None of the three
  record-creation sites sets `image_type`, so every creation commit fails.
* After a commit fails inside the `try:` body the session is left needing
  rollback (`sessionBroken`); the handler's own `db.commit()` then raises
  `PendingRollbackError`, which escapes the unit — hence the unit returns
  `Except String UnitResult`, error meaning an exception propagated to the
  caller.
* `list(executor.map(...))` re-raises the earliest failing item's exception
  while collecting, so the task is `Except`-valued too (side effects of
  items after the first failure are not tracked).
* Effects of one unit of work are made observable by counters in
  `UnitResult`: `fetches` counts outbound `requests.get` calls,
  `inferences` counts `model.predict` calls, `filesWritten` counts image
  files written to disk.
* Nondeterministic external outcomes (the HTTP response, decoding, the
  Keras model score, file-system errors) are supplied by an environment
  `UnitEnv`; exceptions raised by a step are the corresponding
  `Option String` field carrying the Python exception class name.
* Python's `try:/except Exception` in `download_and_classify_url` is the
  `Except RaisedExn` result of `classifyBody`; the handler is the outer
  `download_and_classify_url`, so the unit as a whole is a total function.
* Machine floats are modelled as rationals; `round` is round-half-to-even
  as in Python, and the string renderings model Python's `f"{x:.2f}"` and
  `str(x)` for the nonnegative at-most-two-decimal values this code stores.
-/

namespace ImageClassifier

/-- Decimal digit character; 48 is the code point of the zero digit. -/
def digitChar (n : Nat) : Char := Char.ofNat (48 + n)

/-- Decimal digits of a natural number, most significant digit first. -/
def natDigits (n : Nat) : List Char :=
  if _h : n < 10 then [digitChar n]
  else natDigits (n / 10) ++ [digitChar (n % 10)]
  decreasing_by exact Nat.div_lt_self (by omega) (by omega)

/-- Two fixed digits for a value below one hundred (tens digit then units digit). -/
def twoDigitChars (n : Nat) : List Char := [digitChar (n / 10 % 10), digitChar (n % 10)]

/-- Python `round(x)` with no digit argument: round half to even. -/
def pyRound0 (q : Rat) : Int :=
  let f := q.floor
  let frac := q - (f : Rat)
  if frac < 1 / 2 then f
  else if 1 / 2 < frac then f + 1
  else if f % 2 = 0 then f else f + 1

/-- Python `round(x, 2)`. -/
def pyRound2 (q : Rat) : Rat := (pyRound0 (q * 100) : Rat) / 100

/-- Python `f"{q:.2f}"` for the nonnegative values produced by this code:
round to hundredths, then print the integer part, a dot, and exactly two
fraction digits. -/
def formatTwoDec (q : Rat) : String :=
  let n := (pyRound0 (q * 100)).toNat
  String.mk (natDigits (n / 100) ++ '.' :: twoDigitChars (n % 100))

/-- Python `str(q)` for a nonnegative float holding at most two decimals
(the only confidence values this code stores): minimal digits after the
dot, but always at least one. -/
def pyStrFloat (q : Rat) : String :=
  let n := (pyRound0 (q * 100)).toNat
  let ip := n / 100
  let fp := n % 100
  if fp = 0 then String.mk (natDigits ip ++ '.' :: [digitChar 0])
  else if fp % 10 = 0 then String.mk (natDigits ip ++ '.' :: [digitChar (fp / 10)])
  else String.mk (natDigits ip ++ '.' :: twoDigitChars fp)

/-- Python `str` applied to a nullable float column (`str(None)` is `"None"`). -/
def pyStrOptFloat : Option Rat → String
  | none => "None"
  | some q => pyStrFloat q

/-- Number of characters after the first dot of the list, if there is a dot. -/
def decimalsAfterDot : List Char → Option Nat
  | [] => none
  | c :: cs => if c = '.' then some cs.length else decimalsAfterDot cs

/-- The string contains a dot with exactly two characters after it. -/
def hasTwoDecimals (s : String) : Bool := decimalsAfterDot s.data == some 2

/-- Python `s.startswith(p)`. -/
def pyStartsWith (s p : String) : Bool := p.data.isPrefixOf s.data

/-- Last component of `s.split(sep)`, modelling Python `s.split(sep)[-1]`. -/
def lastSplit (s sep : String) : String := (s.splitOn sep).getLastD s

/-- Model of `os.path.splitext(name)[1]`: the extension of the final path
component including its dot, empty for a bare or leading-dot-only name. -/
def splitextExt (name : String) : String :=
  let base := lastSplit name ("/")
  match base.splitOn (".") with
  | [] => ""
  | [_] => ""
  | p :: rest => if p = "" ∧ rest.length = 1 then "" else "." ++ (p :: rest).getLastD ""

/-- `baseModels.URLClassificationResult`: the per-item value returned by the
pipeline, all four fields rendered as strings by pydantic. -/
structure URLClassificationResult where
  url : String
  status : String
  predicted_class : String
  confidence_level : String
deriving DecidableEq, Repr

/-- `database.ImageRecord`: one durable row per distinct source URL
(primary key `url`); nullable columns are `Option`. -/
structure ImageRecord where
  url : String
  image_type : Option String
  predicted_class : Option String
  status : Option String
  confidence_level : Option Rat
  job_id : Option String
  folder_location : Option String
  local_filename : Option String
  re_label : Bool
  admin_reviewed : Bool
  local_url : Option String
  prediction_model_version : Option String
deriving DecidableEq, Repr

/-- The record store (`image_records` table) as the list of its rows. -/
abbrev Store := List ImageRecord

/-- `db.query(ImageRecord).filter(ImageRecord.url == url).first()`: first
row whose primary-key url matches. -/
def findByURL : Store → String → Option ImageRecord
  | [], _ => none
  | r :: rest, url => if r.url == url then some r else findByURL rest url

/-- Committed in-place mutation of a row: every row with the same url
primary key is replaced by the new value. -/
def upsert : Store → ImageRecord → Store
  | [], _ => []
  | x :: rest, r => (if x.url == r.url then r else x) :: upsert rest r

/-- A `db.commit()` that writes the row `r` (insert when `isInsert`, update
otherwise). The engine enforces `database.py`'s `nullable=False` on
`image_type`: committing a row whose `image_type` is null raises
`IntegrityError`. -/
def commitWrite (store : Store) (isInsert : Bool) (r : ImageRecord) : Except String Store :=
  if r.image_type = none then Except.error ("IntegrityError")
  else Except.ok (if isInsert then store ++ [r] else upsert store r)

/-- `ImageRecord(url=url)` as constructed by the two HTTP endpoints: every
other column is left at its column default (`None`, and `False` for the
two boolean flags). -/
def newPlaceholderRecord (url : String) : ImageRecord :=
  ⟨url, none, none, none, none, none, none, none, false, false, none, none⟩

/-- `ImageRecord(url=url, status="processing")` as created by
`download_and_classify_url` when no record pre-exists. -/
def unitCreatedRecord (url : String) : ImageRecord :=
  { newPlaceholderRecord url with status := some ("processing") }

/-- `CLASS_NAMES = ['environment','studio']` from `worker.py`. -/
def CLASS_NAMES : List String := ["environment", "studio"]

/-- The binary decision of `worker.py` lines 147-154: score at least one
half picks `CLASS_NAMES[1]`, otherwise `CLASS_NAMES[0]`. -/
def decidedClass (score : Rat) : String :=
  if score ≥ 1 / 2 then CLASS_NAMES.get ⟨1, by decide⟩ else CLASS_NAMES.get ⟨0, by decide⟩

/-- The confidence paired with `decidedClass`: the score itself when it is
at least one half, otherwise one minus the score. -/
def decidedConfidence (score : Rat) : Rat :=
  if score ≥ 1 / 2 then score else 1 - score

/-- Outcome of `requests.get(url, timeout=15)`: either a raised exception
(carrying its Python class name, e.g. `Timeout`), or a response with its
2xx-ness, `Content-Type` header and body bytes. -/
inductive FetchOutcome where
  | exn (kind : String)
  | resp (ok2xx : Bool) (contentType : String) (content : List Nat)
deriving DecidableEq, Repr

/-- External environment of one `download_and_classify_url` invocation. -/
structure UnitEnv where
  dbExn : Option String
  fetch : FetchOutcome
  modelAvailable : Bool
  decodeExn : Option String
  score : Rat
  writeExn : Option String
  today : String
  freshName : String
  modelVersion : Option String
deriving DecidableEq, Repr

/-- Observable outcome of one unit of work: the returned value, the record
store after all commits, and the effect counters. -/
structure UnitResult where
  result : URLClassificationResult
  store : Store
  fetches : Nat
  inferences : Nat
  filesWritten : Nat
deriving DecidableEq, Repr

/-- An exception escaping the `try:` body of `download_and_classify_url`,
with the locals the handler can see: the bound `existing_record` if any,
the store as committed so far, the effects already performed, and whether
the exception came from a failed commit, leaving the session in the
needs-rollback state in which its next `commit()` raises
`PendingRollbackError`. -/
structure RaisedExn where
  kind : String
  record : Option ImageRecord
  store : Store
  fetches : Nat
  inferences : Nat
  filesWritten : Nat
  sessionBroken : Bool
deriving DecidableEq, Repr

/-- The generated image filename
`f"{uuid4()}_{class_name}_{round(confidence*100)}.{file_extension}"`. -/
def saveFilename (env : UnitEnv) (class_name : String) (confidence : Rat) (ct : String) : String :=
  env.freshName ++ "_" ++ class_name ++ "_" ++ toString (pyRound0 (confidence * 100)) ++
    "." ++ lastSplit ct ("/")

/-- The record as committed on the success path of
`download_and_classify_url` (lines 156-187): file fields only when `save`
is set, then status, class, rounded confidence, model version, image type. -/
def successRecord (record : ImageRecord) (env : UnitEnv) (ct : String) (save : Bool) :
    ImageRecord :=
  let class_name := decidedClass env.score
  let confidence := decidedConfidence env.score
  let withFile :=
    if save then
      { record with
          local_filename := some (saveFilename env class_name confidence ct),
          folder_location := some env.today }
    else record
  { withFile with
      status := some ("success"),
      predicted_class := some class_name,
      confidence_level := some (pyRound2 (confidence * 100)),
      prediction_model_version := env.modelVersion,
      image_type := some ("url") }

/-- Steps 2-6 of `download_and_classify_url` (download, validate, predict,
save, commit), entered with the record `record` bound and present in
`store`. `Except.error` is an exception escaping to the unit's handler. -/
def afterCacheCheck (url : String) (env : UnitEnv) (store : Store) (save : Bool)
    (record : ImageRecord) : Except RaisedExn UnitResult :=
  match env.fetch with
  | FetchOutcome.exn k => Except.error ⟨k, some record, store, 1, 0, 0, false⟩
  | FetchOutcome.resp ok2xx ct _content =>
    if ok2xx = false then
      Except.error ⟨"HTTPError", some record, store, 1, 0, 0, false⟩
    else if pyStartsWith ct ("image/") = false then
      match commitWrite store false
          { record with
              status := some ("error - url is not an image"),
              predicted_class := some ("unknown") } with
      | Except.error k => Except.error ⟨k, some record, store, 1, 0, 0, true⟩
      | Except.ok store1 =>
        Except.ok ⟨⟨url, "error - url is not an image", "unknown", "0"⟩, store1, 1, 0, 0⟩
    else if env.modelAvailable = false then
      match commitWrite store false
          { record with status := some ("error - model not available") } with
      | Except.error k => Except.error ⟨k, some record, store, 1, 0, 0, true⟩
      | Except.ok store1 =>
        Except.ok ⟨⟨url, "error - model not available", "unknown", "0"⟩, store1, 1, 0, 0⟩
    else
      match env.decodeExn with
      | some k => Except.error ⟨k, some record, store, 1, 0, 0, false⟩
      | none =>
        if save then
          match env.writeExn with
          | some k => Except.error ⟨k, some record, store, 1, 1, 0, false⟩
          | none =>
            match commitWrite store false (successRecord record env ct true) with
            | Except.error k => Except.error ⟨k, some record, store, 1, 1, 1, true⟩
            | Except.ok store1 =>
              Except.ok ⟨⟨url, "success", decidedClass env.score,
                          formatTwoDec (decidedConfidence env.score * 100)⟩,
                         store1, 1, 1, 1⟩
        else
          match commitWrite store false (successRecord record env ct false) with
          | Except.error k => Except.error ⟨k, some record, store, 1, 1, 0, true⟩
          | Except.ok store1 =>
            Except.ok ⟨⟨url, "success", decidedClass env.score,
                        formatTwoDec (decidedConfidence env.score * 100)⟩,
                       store1, 1, 1, 0⟩

/-- The `try:` body of `download_and_classify_url`: cache check first, then
record creation if absent, then the fetch-classify-persist steps. -/
def classifyBody (url : String) (env : UnitEnv) (store : Store) (save : Bool) :
    Except RaisedExn UnitResult :=
  match env.dbExn with
  | some k => Except.error ⟨k, none, store, 0, 0, 0, true⟩
  | none =>
    match findByURL store url with
    | some record =>
      if record.status = some ("success") then
        match record.predicted_class with
        | some pc =>
          Except.ok ⟨⟨record.url, record.status.getD (""), pc,
                      pyStrOptFloat record.confidence_level⟩, store, 0, 0, 0⟩
        | none => Except.error ⟨"ValidationError", some record, store, 0, 0, 0, false⟩
      else afterCacheCheck url env store save record
    | none =>
      match commitWrite store true (unitCreatedRecord url) with
      | Except.error k => Except.error ⟨k, some (unitCreatedRecord url), store, 0, 0, 0, true⟩
      | Except.ok store1 => afterCacheCheck url env store1 save (unitCreatedRecord url)

/-- The `except Exception` handler of `download_and_classify_url`: set the
bound record's status to `error - <exception class>` and `db.commit()`.
When the session is broken by an earlier failed commit, that commit raises
`PendingRollbackError`; if the commit itself violates the constraint it
raises `IntegrityError` — either way the exception escapes the unit.
Otherwise the error-status result is returned. -/
def handleRaised (url : String) (e : RaisedExn) : Except String UnitResult :=
  match e.record with
  | none => Except.ok ⟨⟨url, "error - " ++ e.kind, "unknown", "0"⟩, e.store, e.fetches,
      e.inferences, e.filesWritten⟩
  | some r =>
    if e.sessionBroken then Except.error ("PendingRollbackError")
    else
      match commitWrite e.store false { r with status := some ("error - " ++ e.kind) } with
      | Except.error k => Except.error k
      | Except.ok store1 =>
        Except.ok ⟨⟨url, "error - " ++ e.kind, "unknown", "0"⟩, store1, e.fetches,
          e.inferences, e.filesWritten⟩

/-- `download_and_classify_url` from `worker.py`: the `try:` body wrapped by
the `except Exception` handler. `Except.ok` is a returned
ClassificationResult; `Except.error` is an exception escaping the unit
(in particular, on every fresh url the creation commit raises
`IntegrityError` and the handler's own commit then raises
`PendingRollbackError`). -/
def download_and_classify_url (url : String) (env : UnitEnv) (store : Store) (save : Bool) :
    Except String UnitResult :=
  match classifyBody url env store save with
  | Except.ok out => Except.ok out
  | Except.error e => handleRaised url e

/-- The Celery task `classify_images_from_urls`: `executor.map` of the unit
over the url list yields results in input order, and collecting them with
`list(...)` re-raises the earliest failing item's exception, failing the
whole task; the shared record store is threaded through. -/
def classify_images_from_urls_task (urls : List String) (env : String → UnitEnv)
    (store : Store) : Except String (List URLClassificationResult × Store) :=
  match urls with
  | [] => Except.ok ([], store)
  | u :: rest =>
    match download_and_classify_url u (env u) store true with
    | Except.error k => Except.error k
    | Except.ok out =>
      match classify_images_from_urls_task rest env out.store with
      | Except.error k => Except.error k
      | Except.ok next => Except.ok (out.result :: next.1, next.2)

/-- Outcome of one `get_model()` call. -/
structure GetModelOut where
  ret : Option Unit
  modelState : Option Unit
  attemptedLoad : Bool
deriving DecidableEq, Repr

/-- `get_model` from `worker.py`: `model` is the global handle passed in as
state, `loadResult` is what `keras.models.load_model` would yield on this
call (`none` when the load raises, in which case the handler only prints
and `model` stays `None`). In this single-threaded embedding the inner
double-checked read sees the same state. -/
def get_model (model : Option Unit) (loadResult : Option Unit) : GetModelOut :=
  match model with
  | some m => ⟨some m, some m, false⟩
  | none => ⟨loadResult, loadResult, true⟩

/-- `baseModels.FileDownloadPredictionResult`. -/
structure FileDownloadPredictionResult where
  local_file_name : String
  current_day_dir : String
  confidence_level : String
  predicted_class : String
deriving DecidableEq, Repr

/-- External environment of one `download_and_classify_image_file` call:
`modelLoaded` is the `get_model()` return (`None.predict` raises
`AttributeError`). -/
structure FileEnv where
  decodeExn : Option String
  modelLoaded : Option Unit
  score : Rat
  writeExn : Option String
  today : String
  freshName : String
deriving DecidableEq, Repr

/-- `download_and_classify_image_file` from `worker.py`. It has no
boundary handler: decode errors and a missing model propagate, and a
failed file write is re-raised as `IOError`; `Except.error` carries the
escaping exception's class name. The `save` parameter exists in the
source but is never consulted: the file is always written. -/
def download_and_classify_image_file (originalFileName : String) (env : FileEnv)
    (save : Bool) : Except String FileDownloadPredictionResult :=
  match env.decodeExn with
  | some k => Except.error k
  | none =>
    match env.modelLoaded with
    | none => Except.error ("AttributeError")
    | some _ =>
      let class_name := decidedClass env.score
      let confidence := pyRound2 (decidedConfidence env.score * 100)
      let file_extension := splitextExt originalFileName
      let unique_filename := env.freshName ++ "_" ++ class_name ++ "_" ++
        toString (pyRound0 (confidence * 100)) ++ file_extension
      match env.writeExn with
      | some _ => Except.error ("IOError")
      | none =>
        Except.ok ⟨unique_filename, env.today, pyStrFloat confidence, class_name⟩

/-- One entry of the Celery result backend: task state, the stored result
list for a succeeded task, and the exception info for a failed one. -/
structure JobEntry where
  state : String
  result : Option (List URLClassificationResult)
  info : String
deriving DecidableEq, Repr

/-- Value of the `result` field of a job-status response: `None`, the
per-item result list, or the stringified failure info. -/
inductive JobResultValue where
  | absent
  | items (rs : List URLClassificationResult)
  | errinfo (s : String)
deriving DecidableEq, Repr

/-- `baseModels.JobResultResponse`. -/
structure JobResultResponse where
  job_id : String
  status : String
  result : JobResultValue
deriving DecidableEq, Repr

/-- The Celery result backend as an association list keyed by task id. -/
def lookupJob : List (String × JobEntry) → String → Option JobEntry
  | [], _ => none
  | p :: rest, job_id => if p.1 == job_id then some p.2 else lookupJob rest job_id

/-- `AsyncResult(id).status`: documented Celery semantics report an id
absent from the result backend as the initial state `PENDING`. -/
def asyncResultState (backend : List (String × JobEntry)) (job_id : String) : String :=
  match lookupJob backend job_id with
  | some e => e.state
  | none => "PENDING"

/-- `AsyncResult.ready()`: the state is one of Celery's ready states. -/
def asyncResultReady (st : String) : Bool :=
  st == "SUCCESS" || st == "FAILURE" || st == "REVOKED"

/-- `get_job_status` from `main.py`: build the response from the backend
entry, result only when ready, and overwrite the result with the
stringified exception info when the state is FAILURE. -/
def get_job_status (backend : List (String × JobEntry)) (job_id : String) :
    JobResultResponse :=
  let st := asyncResultState backend job_id
  let res :=
    if asyncResultReady st then
      match lookupJob backend job_id with
      | some e =>
        match e.result with
        | some rs => JobResultValue.items rs
        | none => JobResultValue.absent
      | none => JobResultValue.absent
    else JobResultValue.absent
  if st == "FAILURE" then
    ⟨job_id, st,
     JobResultValue.errinfo
       (match lookupJob backend job_id with
        | some e => e.info
        | none => "")⟩
  else ⟨job_id, st, res⟩

/-- Deletion of a task's meta entries by the backend once the configured
`result_expires = 900` retention window has elapsed. -/
def expireJob : List (String × JobEntry) → String → List (String × JobEntry)
  | [], _ => []
  | p :: rest, job_id =>
    if p.1 == job_id then expireJob rest job_id else p :: expireJob rest job_id

/-- Phase 1 of the `classify_image_urls` endpoint: for each url not yet in
the store, `db.add` an `ImageRecord(url=url_str)` placeholder (the session
has `autoflush=False`, so lookups see only the committed store), then one
`db.commit()` inserts them all — enforcing the NOT NULL `image_type`
constraint on every inserted row. On error the endpoint rolls back and
answers 500, persisting nothing. -/
def createPlaceholders (store : Store) (urls : List String) : Except String Store :=
  let pending := urls.foldl
    (fun acc u =>
      match findByURL store u with
      | some _ => acc
      | none => acc ++ [newPlaceholderRecord u])
    []
  if pending.any (fun r => r.image_type == none) then Except.error ("IntegrityError")
  else Except.ok (store ++ pending)

/-- The record-creation check of the single-item `classify_image_url`
endpoint: when no record exists, `db.add(ImageRecord(url=url))` and commit
— the insert is subject to the same NOT NULL `image_type` check; on error
the endpoint rolls back and answers 500. -/
def classify_image_url_precheck (store : Store) (url : String) : Except String Store :=
  match findByURL store url with
  | some _ => Except.ok store
  | none => commitWrite store true (newPlaceholderRecord url)

/-! ### Concrete inputs used for the closed evaluations below -/

/-- Environment where the outbound fetch raises `requests.exceptions.Timeout`. -/
def envTimeout : UnitEnv :=
  ⟨none, FetchOutcome.exn ("Timeout"), true, none, 0, none, "20251012", "uid1", some ("v1")⟩

/-- Environment where the fetch returns a non-2xx response. -/
def env404 : UnitEnv :=
  ⟨none, FetchOutcome.resp false ("text/html") [], true, none, 0, none, "20251012", "uid1",
   some ("v1")⟩

/-- Environment where the fetch returns 2xx with a non-image content type. -/
def envText : UnitEnv :=
  ⟨none, FetchOutcome.resp true ("text/plain") [], true, none, 0, none, "20251012", "uid1",
   some ("v1")⟩

/-- Environment where the fetch succeeds with an image but the model is
not available. -/
def envNoModel : UnitEnv :=
  ⟨none, FetchOutcome.resp true ("image/jpeg") [7, 7], false, none, 0, none, "20251012",
   "uid1", some ("v1")⟩

/-- Environment of a fully successful classification with score 0.7. -/
def envScore7 : UnitEnv :=
  ⟨none, FetchOutcome.resp true ("image/jpeg") [7, 7], true, none, (7 : Rat) / 10, none,
   "20251012", "uid1", some ("v1")⟩

/-- A stored record of an earlier successful classification (confidence 97.5). -/
def recCached : ImageRecord :=
  ⟨"http://e/a.jpg", some ("url"), some ("studio"), some ("success"),
   some ((195 : Rat) / 2), none, some ("20250101"), some ("f.jpg"), false, false, none,
   some ("v1")⟩

/-- An already-tracked record in status `processing` with the non-null
`image_type` that the NOT NULL constraint guarantees for any persisted
row; lets a unit invocation get past the cache check without a creation
commit. -/
def recProcessing (url : String) : ImageRecord :=
  ⟨url, some ("url"), none, some ("processing"), none, none, none, none, false, false,
   none, none⟩

/-- Input urls of the concrete two-item batch. -/
def urlsC1 : List String := ["http://e/1.jpg", "http://e/2.jpg"]

/-- Store already tracking both batch urls. -/
def storeC1 : Store := [recProcessing ("http://e/1.jpg"), recProcessing ("http://e/2.jpg")]

/-- Results of the concrete batch under a poisoned fetch: one error-status
result per url, in input order. -/
def rsC1 : List URLClassificationResult :=
  [⟨"http://e/1.jpg", "error - Timeout", "unknown", "0"⟩,
   ⟨"http://e/2.jpg", "error - Timeout", "unknown", "0"⟩]

/-- Store after the concrete batch: both records moved to the error status. -/
def stC1 : Store :=
  [{ recProcessing ("http://e/1.jpg") with status := some ("error - Timeout") },
   { recProcessing ("http://e/2.jpg") with status := some ("error - Timeout") }]

/-! ### Helper lemmas about the record store -/

/-- A record found by url lookup carries that url (the lookup filters on
the primary key). -/
theorem eq_of_findByURL (store : Store) (url : String) (r : ImageRecord)
    (h : findByURL store url = some r) : r.url = url := by
  induction store with
  | nil => exact Option.noConfusion h
  | cons a rest ih =>
    unfold findByURL at h
    by_cases ha : a.url = url
    · rw [if_pos (by simp [ha])] at h
      injection h with h
      subst h
      exact ha
    · rw [if_neg (by simp [ha])] at h
      exact ih h

/-- Appending a fresh record with the looked-up url makes the lookup find it. -/
theorem findByURL_append_self (store : Store) (url : String) (r : ImageRecord)
    (h : findByURL store url = none) (hr : r.url = url) :
    findByURL (store ++ [r]) url = some r := by
  induction store with
  | nil => simp [findByURL, hr]
  | cons a rest ih =>
    simp only [findByURL] at h
    rw [List.cons_append]
    simp only [findByURL]
    by_cases ha : a.url = url
    · rw [if_pos (by simp [ha])] at h
      exact Option.noConfusion h
    · rw [if_neg (by simp [ha])] at h
      rw [if_neg (by simp [ha])]
      exact ih h

/-- Replacing the row whose primary key is `url` makes the lookup return
the replacement, provided some row with that key was present. -/
theorem findByURL_upsert (store : Store) (url : String) (r : ImageRecord)
    (hr : r.url = url) (h : ∃ r0, findByURL store url = some r0) :
    findByURL (upsert store r) url = some r := by
  induction store with
  | nil =>
    obtain ⟨r0, h0⟩ := h
    exact Option.noConfusion h0
  | cons a rest ih =>
    obtain ⟨r0, h0⟩ := h
    simp only [findByURL] at h0
    simp only [upsert]
    by_cases ha : a.url = url
    · rw [if_pos (show (a.url == r.url) = true from by simp [ha, hr])]
      simp only [findByURL]
      rw [if_pos (by simp [hr])]
    · rw [if_neg (show ¬ (a.url == r.url) = true from by simp [ha, hr])]
      simp only [findByURL]
      rw [if_neg (by simp [ha])]
      rw [if_neg (by simp [ha])] at h0
      exact ih ⟨r0, h0⟩

/-- Expiring a job id removes its backend entries, so the lookup misses. -/
theorem lookupJob_expire (backend : List (String × JobEntry)) (job_id : String) :
    lookupJob (expireJob backend job_id) job_id = none := by
  induction backend with
  | nil => rfl
  | cons p rest ih =>
    unfold expireJob
    by_cases hp : p.1 = job_id
    · rw [if_pos (by simp [hp])]
      exact ih
    · rw [if_neg (by simp [hp])]
      unfold lookupJob
      rw [if_neg (by simp [hp])]
      exact ih

/-! ### Helper lemmas about decimal rendering -/

/-- Digit characters are never the dot character. -/
theorem digitChar_ne_dot : ∀ n < 10, digitChar n ≠ '.' := by decide

/-- No digit produced by `natDigits` is a dot. -/
theorem natDigits_ne_dot (n : Nat) : ∀ c ∈ natDigits n, c ≠ '.' := by
  induction n using Nat.strong_induction_on with
  | _ n ih =>
    rw [natDigits]
    split
    · intro c hc
      rw [List.mem_singleton] at hc
      subst hc
      exact digitChar_ne_dot _ (by omega)
    · intro c hc
      rw [List.mem_append] at hc
      rcases hc with hc | hc
      · exact ih (n / 10) (Nat.div_lt_self (by omega) (by omega)) c hc
      · rw [List.mem_singleton] at hc
        subst hc
        exact digitChar_ne_dot _ (Nat.mod_lt n (by omega))

/-- Counting characters after the first dot of a dot-free prefix followed
by a dot. -/
theorem decimalsAfterDot_append (xs ys : List Char) (h : ∀ c ∈ xs, c ≠ '.') :
    decimalsAfterDot (xs ++ '.' :: ys) = some ys.length := by
  induction xs with
  | nil => simp [decimalsAfterDot]
  | cons a l ih =>
    have ha : ¬ a = '.' := h a (List.mem_cons_self a l)
    rw [List.cons_append]
    unfold decimalsAfterDot
    rw [if_neg ha]
    exact ih (fun c hc => h c (List.mem_cons_of_mem a hc))

/-- Every string produced by the `.2f` model has exactly two characters
after its dot. -/
theorem hasTwoDecimals_formatTwoDec (q : Rat) : hasTwoDecimals (formatTwoDec q) = true := by
  show (decimalsAfterDot
      (natDigits ((pyRound0 (q * 100)).toNat / 100) ++
        '.' :: twoDigitChars ((pyRound0 (q * 100)).toNat % 100)) == some 2) = true
  rw [decimalsAfterDot_append _ _ (natDigits_ne_dot _)]
  rfl

/-- Bounds of the confidence produced by the decision rule. -/
theorem decidedConfidence_bounds (s : Rat) (h0 : 0 ≤ s) (h1 : s ≤ 1) :
    0 ≤ decidedConfidence s ∧ decidedConfidence s ≤ 1 := by
  unfold decidedConfidence
  split <;> constructor <;> linarith

/-! ### Helper lemmas about the fetch-and-classify unit -/

/-- An update commit on a row whose `image_type` is non-null succeeds. -/
theorem commitWrite_update_ok (store : Store) (r : ImageRecord)
    (h : ¬ r.image_type = none) :
    commitWrite store false r = Except.ok (upsert store r) := by
  unfold commitWrite
  rw [if_neg h]
  rfl

/-- An insert commit on a row whose `image_type` is null raises
`IntegrityError`. -/
theorem commitWrite_insert_nullViolation (store : Store) (r : ImageRecord)
    (h : r.image_type = none) :
    commitWrite store true r = Except.error ("IntegrityError") := by
  unfold commitWrite
  rw [if_pos h]

/-- The success path always sets `image_type` to `url` before committing. -/
theorem successRecord_image_type (record : ImageRecord) (env : UnitEnv) (ct : String)
    (save : Bool) : (successRecord record env ct save).image_type = some ("url") := rfl

/-- A normally returned body value is the unit's value. -/
theorem download_of_body_ok (url : String) (env : UnitEnv) (store : Store) (save : Bool)
    (out : UnitResult) (h : classifyBody url env store save = Except.ok out) :
    download_and_classify_url url env store save = Except.ok out := by
  unfold download_and_classify_url
  rw [h]

/-- A raised body exception is processed by the handler. -/
theorem download_of_body_error (url : String) (env : UnitEnv) (store : Store) (save : Bool)
    (e : RaisedExn) (h : classifyBody url env store save = Except.error e) :
    download_and_classify_url url env store save = handleRaised url e := by
  unfold download_and_classify_url
  rw [h]

/-- The handler on a healthy session with a bound record whose error-status
update can be committed returns the error-status result. -/
theorem handleRaised_some (url : String) (e : RaisedExn) (r : ImageRecord)
    (hrec : e.record = some r) (hb : e.sessionBroken = false)
    (hri : ¬ r.image_type = none) :
    handleRaised url e =
      Except.ok ⟨⟨url, "error - " ++ e.kind, "unknown", "0"⟩,
        upsert e.store { r with status := some ("error - " ++ e.kind) },
        e.fetches, e.inferences, e.filesWritten⟩ := by
  unfold handleRaised
  simp only [hrec, hb, Bool.false_eq_true, if_false]
  rw [commitWrite_update_ok e.store { r with status := some ("error - " ++ e.kind) } hri]

/-- The handler after a broken-session exception with a bound record raises
`PendingRollbackError` out of the unit. -/
theorem handleRaised_broken (url : String) (e : RaisedExn) (r : ImageRecord)
    (hrec : e.record = some r) (hb : e.sessionBroken = true) :
    handleRaised url e = Except.error ("PendingRollbackError") := by
  unfold handleRaised
  simp only [hrec, hb, if_true]

/-- With an existing non-success record the body performs no creation
commit and runs the fetch steps on that record. -/
theorem classifyBody_existing (url : String) (env : UnitEnv) (store : Store) (save : Bool)
    (record : ImageRecord)
    (hdb : env.dbExn = none)
    (hrec : findByURL store url = some record)
    (hns : ¬ record.status = some ("success")) :
    classifyBody url env store save = afterCacheCheck url env store save record := by
  unfold classifyBody
  rw [hdb, hrec]
  exact if_neg hns

/-- On a fresh url the creation commit violates the NOT NULL `image_type`
constraint: the body raises `IntegrityError` with the session broken. -/
theorem classifyBody_fresh (url : String) (env : UnitEnv) (store : Store) (save : Bool)
    (hdb : env.dbExn = none)
    (hrec : findByURL store url = none) :
    classifyBody url env store save =
      Except.error ⟨"IntegrityError", some (unitCreatedRecord url), store, 0, 0, 0, true⟩ := by
  unfold classifyBody
  rw [hdb, hrec]
  rfl

/-- On a fresh url the unit propagates: the handler's own commit on the
broken session raises `PendingRollbackError` to the caller. -/
theorem download_fresh (url : String) (env : UnitEnv) (store : Store) (save : Bool)
    (hdb : env.dbExn = none)
    (hrec : findByURL store url = none) :
    download_and_classify_url url env store save =
      Except.error ("PendingRollbackError") := by
  rw [download_of_body_error url env store save _
    (classifyBody_fresh url env store save hdb hrec)]
  exact handleRaised_broken url _ (unitCreatedRecord url) rfl rfl

/-- Non-2xx response: `raise_for_status` raises `HTTPError` (healthy session). -/
theorem afterCacheCheck_non2xx (url : String) (env : UnitEnv) (store : Store) (save : Bool)
    (record : ImageRecord) (ct : String) (content : List Nat)
    (hf : env.fetch = FetchOutcome.resp false ct content) :
    afterCacheCheck url env store save record =
      Except.error ⟨"HTTPError", some record, store, 1, 0, 0, false⟩ := by
  unfold afterCacheCheck
  rw [hf]
  rfl

/-- A 2xx response whose content type is not `image/...` takes the
not-an-image branch; the update commit succeeds on a constraint-satisfying
row. -/
theorem afterCacheCheck_notAnImage (url : String) (env : UnitEnv) (store : Store) (save : Bool)
    (record : ImageRecord) (ct : String) (content : List Nat)
    (hf : env.fetch = FetchOutcome.resp true ct content)
    (hct : pyStartsWith ct ("image/") = false)
    (hit : ¬ record.image_type = none) :
    afterCacheCheck url env store save record =
      Except.ok ⟨⟨url, "error - url is not an image", "unknown", "0"⟩,
        upsert store { record with
          status := some ("error - url is not an image"),
          predicted_class := some ("unknown") }, 1, 0, 0⟩ := by
  unfold afterCacheCheck
  rw [hf]
  simp only [Bool.true_eq_false, if_false, hct, if_true]
  rw [commitWrite_update_ok store
    { record with
        status := some ("error - url is not an image"),
        predicted_class := some ("unknown") } hit]

/-- A 2xx image response with the model unavailable takes the
model-not-available branch; the update commit succeeds on a
constraint-satisfying row. -/
theorem afterCacheCheck_modelNA (url : String) (env : UnitEnv) (store : Store) (save : Bool)
    (record : ImageRecord) (ct : String) (content : List Nat)
    (hf : env.fetch = FetchOutcome.resp true ct content)
    (hct : pyStartsWith ct ("image/") = true)
    (hm : env.modelAvailable = false)
    (hit : ¬ record.image_type = none) :
    afterCacheCheck url env store save record =
      Except.ok ⟨⟨url, "error - model not available", "unknown", "0"⟩,
        upsert store { record with status := some ("error - model not available") },
        1, 0, 0⟩ := by
  unfold afterCacheCheck
  rw [hf]
  simp only [Bool.true_eq_false, if_false, hct, hm, if_true]
  rw [commitWrite_update_ok store
    { record with status := some ("error - model not available") } hit]

/-- A 2xx image response with the model loaded, a clean decode and a clean
file write takes the success path; its commit always satisfies the
constraint because `image_type` is set to `url`. -/
theorem afterCacheCheck_success (url : String) (env : UnitEnv) (store : Store) (save : Bool)
    (record : ImageRecord) (ct : String) (content : List Nat)
    (hf : env.fetch = FetchOutcome.resp true ct content)
    (hct : pyStartsWith ct ("image/") = true)
    (hm : env.modelAvailable = true)
    (hd : env.decodeExn = none)
    (hw : env.writeExn = none) :
    afterCacheCheck url env store save record =
      Except.ok ⟨⟨url, "success", decidedClass env.score,
                  formatTwoDec (decidedConfidence env.score * 100)⟩,
                 upsert store (successRecord record env ct save), 1, 1,
                 if save then 1 else 0⟩ := by
  have hok : ∀ sv : Bool, commitWrite store false (successRecord record env ct sv) =
      Except.ok (upsert store (successRecord record env ct sv)) := by
    intro sv
    refine commitWrite_update_ok store _ ?_
    rw [successRecord_image_type]
    simp
  unfold afterCacheCheck
  rw [hf]
  cases save with
  | true => simp [hct, hm, hd, hw, hok]
  | false => simp [hct, hm, hd, hok]

/-- Every value returned normally by the body reports the input url. -/
theorem afterCacheCheck_ok_url (url : String) (env : UnitEnv) (store : Store) (save : Bool)
    (record : ImageRecord) (out : UnitResult)
    (h : afterCacheCheck url env store save record = Except.ok out) :
    out.result.url = url := by
  unfold afterCacheCheck at h
  repeat' split at h
  all_goals first
    | exact Except.noConfusion h
    | (injection h with h; subst h; rfl)

/-- Every value returned normally by the whole `try:` body reports the
input url (the cache hit returns the found record's url, which equals the
looked-up url). -/
theorem classifyBody_ok_url (url : String) (env : UnitEnv) (store : Store) (save : Bool)
    (out : UnitResult) (h : classifyBody url env store save = Except.ok out) :
    out.result.url = url := by
  unfold classifyBody at h
  split at h
  · exact Except.noConfusion h
  · split at h
    · rename_i record hfind
      split at h
      · split at h
        · injection h with h
          subst h
          exact eq_of_findByURL store url record hfind
        · exact Except.noConfusion h
      · exact afterCacheCheck_ok_url _ _ _ _ _ _ h
    · split at h
      · exact Except.noConfusion h
      · exact afterCacheCheck_ok_url _ _ _ _ _ _ h

/-- Every result the unit returns (rather than raises) reports the url it
was invoked on. -/
theorem download_ok_url (url : String) (env : UnitEnv) (store : Store) (save : Bool)
    (out : UnitResult) (h : download_and_classify_url url env store save = Except.ok out) :
    out.result.url = url := by
  unfold download_and_classify_url at h
  split at h
  · rename_i o hbody
    injection h with h
    subst h
    exact classifyBody_ok_url url env store save o hbody
  · unfold handleRaised at h
    split at h
    · injection h with h
      subst h
      rfl
    · split at h
      · exact Except.noConfusion h
      · split at h
        · exact Except.noConfusion h
        · injection h with h
          subst h
          rfl

/-! ### The claims -/

/-- C1 counterexample: a batch containing a fresh url returns no result
list at all — the unit's creation commit raises `IntegrityError`, the
handler's commit raises `PendingRollbackError`, and collecting
`executor.map` re-raises it, failing the task — refuting "regardless of
per-item success or failure". -/
theorem claim_c1_counterexample :
    classify_images_from_urls_task [("http://e/new.jpg")] (fun _ => envTimeout) [] =
      Except.error ("PendingRollbackError") := rfl

/-- C1 amended: whenever the batch task does return a result list (no unit
raised), that list has length exactly N and its i-th element is the result
for the i-th input url; but a raising unit — as every fresh url is — makes
the whole task raise instead of returning a list. -/
theorem claim_c1_amended (urls : List String) (env : String → UnitEnv) (store : Store)
    (rs : List URLClassificationResult) (st : Store)
    (h : classify_images_from_urls_task urls env store = Except.ok (rs, st)) :
    rs.length = urls.length ∧
    ∀ i : Nat, (rs[i]?).map (fun r => r.url) = urls[i]? := by
  induction urls generalizing store rs st with
  | nil =>
    unfold classify_images_from_urls_task at h
    injection h with h
    have h1 : [] = rs := congrArg Prod.fst h
    subst h1
    exact ⟨rfl, fun i => by simp⟩
  | cons u rest ih =>
    unfold classify_images_from_urls_task at h
    split at h
    · exact Except.noConfusion h
    · rename_i out hout
      split at h
      · exact Except.noConfusion h
      · rename_i next hnext
        injection h with h
        have h1 : out.result :: next.1 = rs := congrArg Prod.fst h
        subst h1
        obtain ⟨hlen, hidx⟩ := ih out.store next.1 next.2 hnext
        refine ⟨by simp [hlen], fun i => ?_⟩
        cases i with
        | zero => simp [download_ok_url u (env u) store true out hout]
        | succ n => simpa using hidx n

/-- C1 witness: a concrete two-url batch over already-tracked records (both
units return) yields the two error-status results in input order. -/
theorem claim_c1_witness :
    rsC1.length = urlsC1.length ∧
    (rsC1[0]?).map (fun r => r.url) = urlsC1[0]? ∧
    (rsC1[1]?).map (fun r => r.url) = urlsC1[1]? :=
  ⟨(claim_c1_amended urlsC1 (fun _ => envTimeout) storeC1 rsC1 stC1 rfl).1,
   (claim_c1_amended urlsC1 (fun _ => envTimeout) storeC1 rsC1 stC1 rfl).2 0,
   (claim_c1_amended urlsC1 (fun _ => envTimeout) storeC1 rsC1 stC1 rfl).2 1⟩

/-- C2: for every URL whose record exists in the store with status success,
the unit returns a result with the stored record's url, status, predicted
class and (stringified) confidence, performs no fetch, no inference, and
leaves the store unchanged. -/
theorem claim_c2 (url : String) (env : UnitEnv) (store : Store) (save : Bool)
    (record : ImageRecord) (pc : String)
    (hdb : env.dbExn = none)
    (hrec : findByURL store url = some record)
    (hst : record.status = some ("success"))
    (hpc : record.predicted_class = some pc) :
    download_and_classify_url url env store save =
      Except.ok ⟨⟨record.url, "success", pc, pyStrOptFloat record.confidence_level⟩,
        store, 0, 0, 0⟩ := by
  apply download_of_body_ok
  unfold classifyBody
  simp only [hdb, hrec]
  rw [if_pos hst]
  simp [hpc, hst]

/-- C2 witness: a concrete store holding a successful record for the url;
the unit returns its fields with zero fetches, inferences and writes. -/
theorem claim_c2_witness :
    download_and_classify_url ("http://e/a.jpg") envTimeout [recCached] true =
      Except.ok ⟨⟨recCached.url, "success", "studio",
          pyStrOptFloat recCached.confidence_level⟩,
        [recCached], 0, 0, 0⟩ :=
  claim_c2 ("http://e/a.jpg") envTimeout [recCached] true recCached ("studio")
    rfl rfl rfl rfl

/-- C3 counterexample: the unit does propagate — on any fresh url the
creation commit raises `IntegrityError` and the handler's own `db.commit`
then raises `PendingRollbackError` out of `download_and_classify_url`,
refuting "never propagates an exception to its caller". -/
theorem claim_c3_counterexample :
    download_and_classify_url ("http://e/new.jpg") envTimeout [] true =
      Except.error ("PendingRollbackError") := rfl

/-- C3 amended: an exception raised at a step that leaves the session
healthy (fetch, validation, decode, file write), with a bound record whose
error-status update can be committed, is caught and becomes a returned
result with status `error - <exception class>`, predicted class `unknown`
and confidence `0`; but an exception from a failed commit — the creation
commit of every fresh url in particular — makes the handler's own commit
raise, and that exception escapes the unit. -/
theorem claim_c3_amended (url : String) (env : UnitEnv) (store : Store) (save : Bool)
    (e : RaisedExn)
    (h : classifyBody url env store save = Except.error e)
    (hb : e.sessionBroken = false)
    (hr : ∀ r, e.record = some r → ¬ r.image_type = none) :
    download_and_classify_url url env store save =
      Except.ok ⟨⟨url, "error - " ++ e.kind, "unknown", "0"⟩,
        (match e.record with
         | some r => upsert e.store { r with status := some ("error - " ++ e.kind) }
         | none => e.store),
        e.fetches, e.inferences, e.filesWritten⟩ := by
  rw [download_of_body_error url env store save e h]
  cases hrec : e.record with
  | none =>
    unfold handleRaised
    rw [hrec]
  | some r =>
    rw [handleRaised_some url e r hrec hb (hr r hrec)]

/-- C3 witness: a concrete timeout on an already-tracked record yields the
returned error-status result and the committed status update. -/
theorem claim_c3_witness :
    download_and_classify_url ("http://e/i.jpg") envTimeout
        [recProcessing ("http://e/i.jpg")] true =
      Except.ok ⟨⟨"http://e/i.jpg", "error - " ++ "Timeout", "unknown", "0"⟩,
        upsert [recProcessing ("http://e/i.jpg")]
          { recProcessing ("http://e/i.jpg") with status := some ("error - " ++ "Timeout") },
        1, 0, 0⟩ :=
  claim_c3_amended ("http://e/i.jpg") envTimeout [recProcessing ("http://e/i.jpg")] true
    ⟨"Timeout", some (recProcessing ("http://e/i.jpg")), [recProcessing ("http://e/i.jpg")],
     1, 0, 0, false⟩ rfl rfl (by intro r hrr; cases hrr; decide)

/-- C4 counterexample: after a failed first load the global model handle is
still `None`, so the very next `get_model` call attempts the load again and
can even succeed — the first failure is not terminal and the load is
retried, contrary to the claim. -/
theorem claim_c4_counterexample :
    (get_model none none).modelState = none ∧
    (get_model none none).attemptedLoad = true ∧
    (get_model (get_model none none).modelState (some ())).attemptedLoad = true ∧
    (get_model (get_model none none).modelState (some ())).ret = some () :=
  ⟨rfl, rfl, rfl, rfl⟩

/-- C4 amended: while the model is unloaded every `get_model` call
re-attempts the load (failure is not terminal), and a classification that
reaches the model check — an existing non-success record whose 2xx image
fetch succeeded — returns and persists status `error - model not
available` with predicted class `unknown` and confidence `0` (a fresh url
instead fails earlier, at the creation commit). -/
theorem claim_c4_amended (url : String) (env : UnitEnv) (store : Store) (save : Bool)
    (ct : String) (content : List Nat) (loadResult : Option Unit) (record : ImageRecord)
    (hdb : env.dbExn = none)
    (hrec : findByURL store url = some record)
    (hns : ¬ record.status = some ("success"))
    (hit : ¬ record.image_type = none)
    (hf : env.fetch = FetchOutcome.resp true ct content)
    (hct : pyStartsWith ct ("image/") = true)
    (hm : env.modelAvailable = false) :
    (get_model none loadResult).attemptedLoad = true ∧
    download_and_classify_url url env store save =
      Except.ok ⟨⟨url, "error - model not available", "unknown", "0"⟩,
        upsert store { record with status := some ("error - model not available") },
        1, 0, 0⟩ := by
  refine ⟨rfl, ?_⟩
  exact download_of_body_ok url env store save _
    ((classifyBody_existing url env store save record hdb hrec hns).trans
      (afterCacheCheck_modelNA url env store save record ct content hf hct hm hit))

/-- C4 witness: concrete unavailable-model classification over an
already-tracked record. -/
theorem claim_c4_witness :
    (get_model none none).attemptedLoad = true ∧
    download_and_classify_url ("http://e/i.jpg") envNoModel
        [recProcessing ("http://e/i.jpg")] true =
      Except.ok ⟨⟨"http://e/i.jpg", "error - model not available", "unknown", "0"⟩,
        upsert [recProcessing ("http://e/i.jpg")]
          { recProcessing ("http://e/i.jpg") with
              status := some ("error - model not available") },
        1, 0, 0⟩ :=
  claim_c4_amended ("http://e/i.jpg") envNoModel [recProcessing ("http://e/i.jpg")] true
    ("image/jpeg") [7, 7] none (recProcessing ("http://e/i.jpg"))
    rfl rfl (by decide) (by decide) rfl (by decide) rfl

/-- C5 counterexample: querying an unknown handle, or a handle whose
backend entry has expired, reports status `PENDING` — the Job Manager does
report such handles as pending, contrary to the claim. -/
theorem claim_c5_counterexample :
    (get_job_status [] ("unknown-job")).status = "PENDING" ∧
    (get_job_status (expireJob [(("job-9"), ⟨"SUCCESS", some [], ""⟩)] ("job-9"))
        ("job-9")).status = "PENDING" ∧
    (get_job_status (expireJob [(("job-9"), ⟨"SUCCESS", some [], ""⟩)] ("job-9"))
        ("job-9")).result = JobResultValue.absent :=
  ⟨rfl, rfl, rfl⟩

/-- C5 amended: querying an unknown handle, or any handle after its backend
entry expired, yields status `PENDING` with a null result — never stale
result data, but also never an explicit not-found. -/
theorem claim_c5_amended (backend : List (String × JobEntry)) (job_id : String) :
    (lookupJob backend job_id = none →
      get_job_status backend job_id = ⟨job_id, "PENDING", JobResultValue.absent⟩) ∧
    get_job_status (expireJob backend job_id) job_id =
      ⟨job_id, "PENDING", JobResultValue.absent⟩ := by
  constructor
  · intro h
    unfold get_job_status asyncResultState
    rw [h]
    rfl
  · have h := lookupJob_expire backend job_id
    unfold get_job_status asyncResultState
    rw [h]
    rfl

/-- C5 witness: concrete unknown handle on an empty backend. -/
theorem claim_c5_witness :
    get_job_status [] ("job-1") = ⟨"job-1", "PENDING", JobResultValue.absent⟩ ∧
    get_job_status (expireJob [] ("job-1")) ("job-1") =
      ⟨"job-1", "PENDING", JobResultValue.absent⟩ :=
  ⟨(claim_c5_amended [] ("job-1")).1 rfl, (claim_c5_amended [] ("job-1")).2⟩

/-- C6 counterexample: a non-2xx response on an already-tracked url makes
`raise_for_status` raise, so the unit reports and persists
`error - HTTPError`, not the claimed not-an-image status (in either
spelling). -/
theorem claim_c6_counterexample :
    download_and_classify_url ("http://e/bad.txt") env404
        [recProcessing ("http://e/bad.txt")] true =
      Except.ok ⟨⟨"http://e/bad.txt", "error - HTTPError", "unknown", "0"⟩,
        [{ recProcessing ("http://e/bad.txt") with status := some ("error - HTTPError") }],
        1, 0, 0⟩ ∧
    ("error - HTTPError" : String) ≠ "error: not-an-image" ∧
    ("error - HTTPError" : String) ≠ "error - url is not an image" := by
  refine ⟨rfl, by decide, by decide⟩

/-- C6 amended: for a url with an existing non-success record whose fetch
returns 2xx with a non-image content type, the unit persists status
`error - url is not an image` (the code's literal, not
`error: not-an-image`) with predicted class `unknown` and returns a result
with that status, confidence `0` and predicted class `unknown`; a non-2xx
response instead raises `HTTPError` and is reported as
`error - HTTPError`, and a fresh url fails earlier, at the creation
commit. -/
theorem claim_c6_amended (url : String) (env : UnitEnv) (store : Store) (save : Bool)
    (ct : String) (content : List Nat) (record : ImageRecord)
    (hdb : env.dbExn = none)
    (hrec : findByURL store url = some record)
    (hns : ¬ record.status = some ("success"))
    (hit : ¬ record.image_type = none)
    (hf : env.fetch = FetchOutcome.resp true ct content)
    (hct : pyStartsWith ct ("image/") = false) :
    download_and_classify_url url env store save =
      Except.ok ⟨⟨url, "error - url is not an image", "unknown", "0"⟩,
        upsert store { record with
          status := some ("error - url is not an image"),
          predicted_class := some ("unknown") }, 1, 0, 0⟩ ∧
    ∃ r, findByURL (upsert store { record with
            status := some ("error - url is not an image"),
            predicted_class := some ("unknown") }) url = some r ∧
      r.status = some ("error - url is not an image") ∧
      r.predicted_class = some ("unknown") := by
  constructor
  · exact download_of_body_ok url env store save _
      ((classifyBody_existing url env store save record hdb hrec hns).trans
        (afterCacheCheck_notAnImage url env store save record ct content hf hct hit))
  · refine ⟨{ record with
        status := some ("error - url is not an image"),
        predicted_class := some ("unknown") }, ?_, rfl, rfl⟩
    exact findByURL_upsert store url _ (eq_of_findByURL store url record hrec)
      ⟨record, hrec⟩

/-- C6 witness: concrete 2xx text/plain response over an already-tracked
record. -/
theorem claim_c6_witness :
    download_and_classify_url ("http://e/doc.txt") envText
        [recProcessing ("http://e/doc.txt")] true =
      Except.ok ⟨⟨"http://e/doc.txt", "error - url is not an image", "unknown", "0"⟩,
        upsert [recProcessing ("http://e/doc.txt")]
          { recProcessing ("http://e/doc.txt") with
              status := some ("error - url is not an image"),
              predicted_class := some ("unknown") }, 1, 0, 0⟩ ∧
    ∃ r, findByURL (upsert [recProcessing ("http://e/doc.txt")]
          { recProcessing ("http://e/doc.txt") with
              status := some ("error - url is not an image"),
              predicted_class := some ("unknown") }) ("http://e/doc.txt") = some r ∧
      r.status = some ("error - url is not an image") ∧
      r.predicted_class = some ("unknown") :=
  claim_c6_amended ("http://e/doc.txt") envText [recProcessing ("http://e/doc.txt")] true
    ("text/plain") [] (recProcessing ("http://e/doc.txt"))
    rfl rfl (by decide) (by decide) rfl (by decide)

/-- C7: for every model score s in [0,1] at an invocation that reaches the
prediction step (existing non-success record, 2xx image fetch, model
loaded, clean decode and write), a score of at least one half yields
predicted class `studio` with reported confidence the score itself, and a
smaller score yields `environment` with confidence one minus the score. -/
theorem claim_c7 (url : String) (env : UnitEnv) (store : Store) (save : Bool)
    (ct : String) (content : List Nat) (record : ImageRecord)
    (h0 : 0 ≤ env.score) (h1 : env.score ≤ 1)
    (hdb : env.dbExn = none)
    (hrec : findByURL store url = some record)
    (hns : ¬ record.status = some ("success"))
    (hf : env.fetch = FetchOutcome.resp true ct content)
    (hct : pyStartsWith ct ("image/") = true)
    (hm : env.modelAvailable = true)
    (hd : env.decodeExn = none)
    (hw : env.writeExn = none) :
    (env.score ≥ 1 / 2 →
      download_and_classify_url url env store save =
        Except.ok ⟨⟨url, "success", "studio", formatTwoDec (env.score * 100)⟩,
          upsert store (successRecord record env ct save), 1, 1,
          if save then 1 else 0⟩) ∧
    (env.score < 1 / 2 →
      download_and_classify_url url env store save =
        Except.ok ⟨⟨url, "success", "environment", formatTwoDec ((1 - env.score) * 100)⟩,
          upsert store (successRecord record env ct save), 1, 1,
          if save then 1 else 0⟩) := by
  have hdl := download_of_body_ok url env store save _
    ((classifyBody_existing url env store save record hdb hrec hns).trans
      (afterCacheCheck_success url env store save record ct content hf hct hm hd hw))
  constructor
  · intro hs
    rw [hdl]
    unfold decidedClass decidedConfidence
    rw [if_pos hs, if_pos hs]
    rfl
  · intro hs
    have hs' : ¬ env.score ≥ 1 / 2 := not_le.mpr hs
    rw [hdl]
    unfold decidedClass decidedConfidence
    rw [if_neg hs', if_neg hs']
    rfl

/-- C7 witness: score 0.7 over an already-tracked record yields class
`studio` with the score reported as the confidence percentage. -/
theorem claim_c7_witness :
    download_and_classify_url ("http://e/i.jpg") envScore7
        [recProcessing ("http://e/i.jpg")] true =
      Except.ok ⟨⟨"http://e/i.jpg", "success", "studio",
          formatTwoDec (envScore7.score * 100)⟩,
        upsert [recProcessing ("http://e/i.jpg")]
          (successRecord (recProcessing ("http://e/i.jpg")) envScore7 ("image/jpeg") true),
        1, 1, 1⟩ :=
  (claim_c7 ("http://e/i.jpg") envScore7 [recProcessing ("http://e/i.jpg")] true
    ("image/jpeg") [7, 7] (recProcessing ("http://e/i.jpg"))
    (by norm_num [envScore7]) (by norm_num [envScore7]) rfl rfl (by decide)
    rfl (by decide) rfl rfl rfl).1 (by norm_num [envScore7])

/-- C8 counterexample: the not-an-image error outcome reports
confidence_level `"0"`, which is not rendered with two decimal places — so
not every returned result is two-decimal formatted. -/
theorem claim_c8_counterexample :
    download_and_classify_url ("http://e/doc.txt") envText
        [recProcessing ("http://e/doc.txt")] true =
      Except.ok ⟨⟨"http://e/doc.txt", "error - url is not an image", "unknown", "0"⟩,
        upsert [recProcessing ("http://e/doc.txt")]
          { recProcessing ("http://e/doc.txt") with
              status := some ("error - url is not an image"),
              predicted_class := some ("unknown") }, 1, 0, 0⟩ ∧
    hasTwoDecimals ("0") = false := by
  refine ⟨rfl, by decide⟩

/-- C8 amended: a successful classification reports its confidence as a
two-decimal percentage of a value in [0,100]; error outcomes instead
report the literal `"0"` and cache hits report Python `str()` of the
stored float. -/
theorem claim_c8_amended (url : String) (env : UnitEnv) (store : Store) (save : Bool)
    (ct : String) (content : List Nat) (record : ImageRecord)
    (h0 : 0 ≤ env.score) (h1 : env.score ≤ 1)
    (hdb : env.dbExn = none)
    (hrec : findByURL store url = some record)
    (hns : ¬ record.status = some ("success"))
    (hf : env.fetch = FetchOutcome.resp true ct content)
    (hct : pyStartsWith ct ("image/") = true)
    (hm : env.modelAvailable = true)
    (hd : env.decodeExn = none)
    (hw : env.writeExn = none) :
    download_and_classify_url url env store save =
      Except.ok ⟨⟨url, "success", decidedClass env.score,
          formatTwoDec (decidedConfidence env.score * 100)⟩,
        upsert store (successRecord record env ct save), 1, 1,
        if save then 1 else 0⟩ ∧
    hasTwoDecimals (formatTwoDec (decidedConfidence env.score * 100)) = true ∧
    0 ≤ decidedConfidence env.score * 100 ∧
    decidedConfidence env.score * 100 ≤ 100 := by
  obtain ⟨hc0, hc1⟩ := decidedConfidence_bounds env.score h0 h1
  refine ⟨?_, hasTwoDecimals_formatTwoDec _, by linarith, by linarith⟩
  exact download_of_body_ok url env store save _
    ((classifyBody_existing url env store save record hdb hrec hns).trans
      (afterCacheCheck_success url env store save record ct content hf hct hm hd hw))

/-- C8 witness: score 0.7 over an already-tracked record reports the
two-decimal bounded percentage. -/
theorem claim_c8_witness :
    download_and_classify_url ("http://e/i.jpg") envScore7
        [recProcessing ("http://e/i.jpg")] true =
      Except.ok ⟨⟨"http://e/i.jpg", "success", decidedClass envScore7.score,
          formatTwoDec (decidedConfidence envScore7.score * 100)⟩,
        upsert [recProcessing ("http://e/i.jpg")]
          (successRecord (recProcessing ("http://e/i.jpg")) envScore7 ("image/jpeg") true),
        1, 1, 1⟩ ∧
    hasTwoDecimals (formatTwoDec (decidedConfidence envScore7.score * 100)) = true ∧
    0 ≤ decidedConfidence envScore7.score * 100 ∧
    decidedConfidence envScore7.score * 100 ≤ 100 :=
  claim_c8_amended ("http://e/i.jpg") envScore7 [recProcessing ("http://e/i.jpg")] true
    ("image/jpeg") [7, 7] (recProcessing ("http://e/i.jpg"))
    (by norm_num [envScore7]) (by norm_num [envScore7]) rfl rfl (by decide)
    rfl (by decide) rfl rfl rfl

/-- C9 (code bug): the spec's intended record creation cannot happen — on a
fresh url the batch endpoint's phase-1 commit, the single-item endpoint's
create and the unit's own creation commit all insert a row whose
`image_type` is null against the schema's NOT NULL constraint, raising
`IntegrityError` (the endpoints roll back and answer 500, persisting
nothing), because no creation site ever sets `image_type`. -/
theorem claim_c9 :
    createPlaceholders [] [("http://e/i.jpg")] = Except.error ("IntegrityError") ∧
    classify_image_url_precheck [] ("http://e/i.jpg") = Except.error ("IntegrityError") ∧
    commitWrite [] true (unitCreatedRecord ("http://e/i.jpg")) =
      Except.error ("IntegrityError") ∧
    (newPlaceholderRecord ("http://e/i.jpg")).image_type = none ∧
    (unitCreatedRecord ("http://e/i.jpg")).image_type = none :=
  ⟨rfl, rfl, rfl, rfl, rfl⟩

/-- C10: the uploaded-file classification function has no boundary handler:
invalid image bytes propagate the decode exception, an unavailable model
propagates `AttributeError` from `None.predict`, and a failed file write is
re-raised as `IOError` — each is an escaping exception, not an error-status
result. -/
theorem claim_c10 :
    download_and_classify_image_file ("photo.jpg")
      ⟨some ("UnidentifiedImageError"), some (), 0, none, "20251012", "uid1"⟩ true =
      Except.error ("UnidentifiedImageError") ∧
    download_and_classify_image_file ("photo.jpg")
      ⟨none, none, 0, none, "20251012", "uid1"⟩ true =
      Except.error ("AttributeError") ∧
    download_and_classify_image_file ("photo.jpg")
      ⟨none, some (), (7 : Rat) / 10, some ("OSError"), "20251012", "uid1"⟩ true =
      Except.error ("IOError") :=
  ⟨rfl, rfl, rfl⟩

end ImageClassifier
